import Mathlib

/-!
# Verification of the spyspotter tracker-scanning core

Shallow embedding of the tracker detection and privacy-scoring engine of
the `spyspotter` repository (Python), together with proofs settling the
frozen claims C1..C10 about it.

Conventions of the embedding:
* Python `float` values are modelled as `ℚ` (the algorithms use only
  field arithmetic on them); Python `int` as `ℤ` or `ℕ`.
* Python sets (`set(...)`) are modelled by `List.dedup`.
* Python dictionaries returned by the services are modelled as Lean
  structures with one field per key.
* Fallible operations (exceptions) are modelled with `Except String`.
* `urllib.parse.urlparse(u).netloc` is modelled by `netloc` below.
-/

namespace SpySpotter

/-- `RiskLevel` enumeration from `pixeltracker/models.py`. -/
inductive RiskLevel where
  | low
  | medium
  | high
  | critical
deriving DecidableEq, Repr

/-- `TrackerCategory` enumeration from `pixeltracker/models.py`
(10 members). -/
inductive TrackerCategory where
  | analytics
  | advertising
  | social_advertising
  | user_experience
  | optimization
  | marketing_automation
  | performance
  | privacy_invasion
  | e_commerce
  | unknown
deriving DecidableEq, Repr

/-- All members of the `TrackerCategory` enum; `len(TrackerCategory)` in
the Python source is the length of this list. -/
def TrackerCategory.all : List TrackerCategory :=
  [.analytics, .advertising, .social_advertising, .user_experience,
   .optimization, .marketing_automation, .performance, .privacy_invasion,
   .e_commerce, .unknown]

/-- `TrackerInfo` dataclass from `pixeltracker/models.py`.  The free-form
`details` dict is modelled as a list of key/value string pairs.  The
`confidence` field defaults to `1.0` in the source, modelled by the
default value `1` here. -/
structure TrackerInfo where
  tracker_type : String
  domain : String
  source : String
  category : TrackerCategory
  risk_level : RiskLevel
  purpose : String
  first_seen : String
  details : List (String × String) := []
  confidence : ℚ := 1
deriving DecidableEq, Repr

/-- `AnalyzerService.calculate_privacy_score`
(`pixeltracker/services/analyzer.py`): starts at 100 and subtracts 15
per `high`, 10 per `medium` and 5 per `low` tracker (no branch for
`critical`, no category surcharge), clamped below at 0. -/
def AnalyzerService.calculate_privacy_score (trackers : List TrackerInfo) : ℤ :=
  let base_score : ℤ := trackers.foldl
    (fun score tracker =>
      if tracker.risk_level = RiskLevel.high then score - 15
      else if tracker.risk_level = RiskLevel.medium then score - 10
      else if tracker.risk_level = RiskLevel.low then score - 5
      else score)
    100
  max base_score 0

/-- Result dictionary of `AnalyzerService.assess_risks`. -/
structure RiskAssessment where
  overall_risk : RiskLevel
  high_risk_trackers : ℕ
  medium_risk_trackers : ℕ
deriving DecidableEq, Repr

/-- `AnalyzerService.assess_risks` (`pixeltracker/services/analyzer.py`):
counts trackers whose risk level is exactly `high` and exactly `medium`;
`overall_risk` is `high` when the high count is ≥ 2, else `medium` when
the medium count is ≥ 3, else `low`.  The `url` argument is unused by the
source body. -/
def AnalyzerService.assess_risks (trackers : List TrackerInfo) (_url : String) :
    RiskAssessment :=
  let high_risk_count := (trackers.filter (fun t => t.risk_level = RiskLevel.high)).length
  let medium_risk_count := (trackers.filter (fun t => t.risk_level = RiskLevel.medium)).length
  let risk_level :=
    if high_risk_count ≥ 2 then RiskLevel.high
    else if medium_risk_count ≥ 3 then RiskLevel.medium
    else RiskLevel.low
  { overall_risk := risk_level
    high_risk_trackers := high_risk_count
    medium_risk_trackers := medium_risk_count }

/-- `EnhancedTrackingScanner.calculate_privacy_score`
(`enhanced_tracking_scanner.py`): subtracts 15/8/3 for high/medium/low
risk (no `critical` branch) plus a category surcharge of 10 for
`advertising`/`social_advertising` and 20 for `privacy_invasion`,
clamped below at 0.  The `metrics` argument is unused by the source
body. -/
def EnhancedTrackingScanner.calculate_privacy_score
    (trackers : List TrackerInfo) : ℤ :=
  let base_score : ℤ := trackers.foldl
    (fun score tracker =>
      let score :=
        if tracker.risk_level = RiskLevel.high then score - 15
        else if tracker.risk_level = RiskLevel.medium then score - 8
        else if tracker.risk_level = RiskLevel.low then score - 3
        else score
      if tracker.category = TrackerCategory.advertising ∨
         tracker.category = TrackerCategory.social_advertising then score - 10
      else if tracker.category = TrackerCategory.privacy_invasion then score - 20
      else score)
    100
  max 0 base_score

/-- A sample tracker: one `high`-risk, `advertising`-category tracker. -/
def highAdvertisingTracker : TrackerInfo :=
  { tracker_type := "javascript"
    domain := "ads.example.com"
    source := "https://ads.example.com/pixel.js"
    category := TrackerCategory.advertising
    risk_level := RiskLevel.high
    purpose := "advertising"
    first_seen := "2024-01-01T00:00:00" }

/-- A sample tracker with `critical` risk level. -/
def criticalTracker : TrackerInfo :=
  { tracker_type := "fingerprinting"
    domain := "spy.example.com"
    source := "https://spy.example.com/fp.js"
    category := TrackerCategory.privacy_invasion
    risk_level := RiskLevel.critical
    purpose := "fingerprinting"
    first_seen := "2024-01-01T00:00:00" }

/-- Model of `urllib.parse.urlparse(s).netloc`: the authority component
between the first `//` and the following `/` (empty when the input has
no `//`). -/
def netloc (s : String) : String :=
  match s.splitOn "//" with
  | [] => ""
  | [_] => ""
  | _ :: rest => (((String.intercalate "//" rest).splitOn "/").headD "")

/-- `BasicTrackingScanner._extract_domain`: `urlparse(url).netloc or
'unknown'` with a blanket exception fallback to `'unknown'`. -/
def extract_domain (url : String) : String :=
  let d := netloc url
  if d = "" then "unknown" else d

/-- One entry of the `pixels` list produced by
`HTMLParserService.find_tracking_pixels`. -/
structure PixelCandidate where
  element_type : String := "img"
  src : String
  width : String
  height : String
  is_1x1_pixel : Bool
  tracking_domain : Option String
deriving DecidableEq, Repr

/-- One entry of the `js_trackers` list produced by
`HTMLParserService.find_javascript_trackers`: either an external script
matched by tracking domain, or an inline script matched by a call
pattern. -/
inductive JsCandidate where
  | external_script (domain : String) (src : String)
  | inline_script (pattern : String) (content_snippet : String)
deriving DecidableEq, Repr

/-- One entry of the `meta_trackers` list produced by
`HTMLParserService.find_meta_trackers`. -/
inductive MetaCandidate where
  | verification_meta (name : String) (content : String)
  | social_meta (property : String) (content : String)
deriving DecidableEq, Repr

/-- The dictionary returned by `HTMLParserService.parse`. -/
structure ParsedData where
  pixels : List PixelCandidate
  js_trackers : List JsCandidate
  meta_trackers : List MetaCandidate
deriving DecidableEq, Repr

/-- Rendering of a pixel candidate dict as `TrackerInfo.details`. -/
def PixelCandidate.toDetails (p : PixelCandidate) : List (String × String) :=
  [("element_type", p.element_type), ("src", p.src), ("width", p.width),
   ("height", p.height), ("is_1x1_pixel", if p.is_1x1_pixel then "True" else "False"),
   ("tracking_domain", p.tracking_domain.getD "None")]

/-- Rendering of a js candidate dict as `TrackerInfo.details`. -/
def JsCandidate.toDetails : JsCandidate → List (String × String)
  | .external_script domain src =>
      [("type", "external_script"), ("domain", domain), ("src", src)]
  | .inline_script pattern snippet =>
      [("type", "inline_script"), ("pattern", pattern), ("content_snippet", snippet)]

/-- Rendering of a meta candidate dict as `TrackerInfo.details`. -/
def MetaCandidate.toDetails : MetaCandidate → List (String × String)
  | .verification_meta name content =>
      [("type", "verification_meta"), ("name", name), ("content", content)]
  | .social_meta property content =>
      [("type", "social_meta"), ("property", property), ("content", content)]

/-- `js_tracker.get('domain', self._extract_domain(js_tracker.get('src', '')))`:
external scripts carry a `domain` key, inline scripts do not. -/
def JsCandidate.domainOf : JsCandidate → String
  | .external_script domain _ => domain
  | .inline_script _ _ => extract_domain ""

/-- `js_tracker.get('src', 'inline')`. -/
def JsCandidate.srcOf : JsCandidate → String
  | .external_script _ src => src
  | .inline_script _ _ => "inline"

/-- `js_tracker.get('type') == 'external_script'`. -/
def JsCandidate.isExternal : JsCandidate → Bool
  | .external_script _ _ => true
  | .inline_script _ _ => false

/-- `BasicTrackingScanner._convert_to_tracker_info`
(`pixeltracker/scanners/basic.py`): converts parsed pixel, javascript
and meta candidates into `TrackerInfo` records.  `datetime.now().isoformat()`
is passed in as `now`. -/
def convert_to_tracker_info (parsed : ParsedData) (url : String) (now : String) :
    List TrackerInfo :=
  (parsed.pixels.map (fun p =>
    { tracker_type := "tracking_pixel"
      domain := extract_domain p.src
      source := p.src
      category := TrackerCategory.analytics
      risk_level := RiskLevel.medium
      purpose := "tracking"
      first_seen := now
      details := p.toDetails : TrackerInfo })) ++
  (parsed.js_trackers.map (fun j =>
    { tracker_type := "javascript_tracker"
      domain := j.domainOf
      source := j.srcOf
      category := TrackerCategory.analytics
      risk_level := if j.isExternal then RiskLevel.high else RiskLevel.medium
      purpose := "tracking"
      first_seen := now
      details := j.toDetails : TrackerInfo })) ++
  (parsed.meta_trackers.map (fun m =>
    { tracker_type := "meta_tracker"
      domain := netloc url
      source := "meta_tag"
      category := TrackerCategory.analytics
      risk_level := RiskLevel.low
      purpose := "verification"
      first_seen := now
      details := m.toDetails : TrackerInfo }))

/-- Result dictionary of `AnalyzerService.analyze_privacy_impact`. -/
structure PrivacyImpact where
  privacy_score : ℤ
  risk_level : RiskLevel
  detected_categories : List TrackerCategory
  high_risk_domains : List String
  recommendations : List String
deriving DecidableEq, Repr

/-- `AnalyzerService.analyze_privacy_impact`
(`pixeltracker/services/analyzer.py`).  `list(set(...))` is modelled by
`List.dedup`. -/
def AnalyzerService.analyze_privacy_impact (trackers : List TrackerInfo)
    (url : String) : PrivacyImpact :=
  let high_risk_domains := (trackers.filter (fun t =>
    t.risk_level = RiskLevel.high ∨ t.risk_level = RiskLevel.critical)).map (·.domain)
  let detected_categories := (trackers.map (·.category)).dedup
  let recommendations :=
    if high_risk_domains.isEmpty then ([] : List String)
    else ["Consider using privacy-focused tools and reviewing browser settings."]
  { privacy_score := AnalyzerService.calculate_privacy_score trackers
    risk_level := (AnalyzerService.assess_risks trackers url).overall_risk
    detected_categories := detected_categories
    high_risk_domains := high_risk_domains
    recommendations := recommendations }

/-- `PerformanceMetrics` dataclass from `pixeltracker/models.py`. -/
structure PerformanceMetrics where
  response_time : ℚ
  content_length : ℤ
  status_code : ℤ
  redirects : ℤ
  dns_lookup_time : Option ℚ := none
  connect_time : Option ℚ := none
  ssl_handshake_time : Option ℚ := none
deriving DecidableEq, Repr

/-- `PrivacyAnalysis` dataclass from `pixeltracker/models.py`. -/
structure PrivacyAnalysis where
  privacy_score : ℤ
  risk_level : RiskLevel
  detected_categories : List TrackerCategory
  high_risk_domains : List String
  recommendations : List String
  compliance_status : List (String × Bool) := []
deriving DecidableEq, Repr

/-- `ScanResult` dataclass from `pixeltracker/models.py`. -/
structure ScanResult where
  url : String
  timestamp : String
  trackers : List TrackerInfo
  performance_metrics : PerformanceMetrics
  privacy_analysis : PrivacyAnalysis
  scan_duration : ℚ
  scan_type : String := "basic"
  javascript_enabled : Bool := false
  error : Option String := none
deriving DecidableEq, Repr

/-- `ScanResult.unique_domains` property: `list(set(...))` modelled by
`List.dedup`. -/
def ScanResult.unique_domains (r : ScanResult) : List String :=
  (r.trackers.map (·.domain)).dedup

/-- `ScanResult.categories_detected` property. -/
def ScanResult.categories_detected (r : ScanResult) : List TrackerCategory :=
  (r.trackers.map (·.category)).dedup

/-- `BasicTrackingScanner._create_error_result`
(`pixeltracker/scanners/basic.py`): a `ScanResult` with no trackers,
zeroed metrics, privacy score 0, risk level low and the error message
recorded.  The wall-clock duration `time.time() - start_time` is passed
in as `scan_duration`. -/
def create_error_result (url error_message timestamp : String)
    (scan_duration : ℚ) : ScanResult :=
  { url := url
    timestamp := timestamp
    trackers := []
    performance_metrics :=
      { response_time := 0, content_length := 0, status_code := 0, redirects := 0 }
    privacy_analysis :=
      { privacy_score := 0
        risk_level := RiskLevel.low
        detected_categories := []
        high_risk_domains := []
        recommendations := [] }
    scan_duration := scan_duration
    scan_type := "basic"
    javascript_enabled := false
    error := some error_message }

/-- The metrics half of the dictionary returned by `Fetcher.fetch`; keys
are read with `.get(key, default)` in `scan_url`, so each is optional. -/
structure FetchMetrics where
  response_time : Option ℚ := none
  content_length : Option ℤ := none
  status_code : Option ℤ := none
  redirects : Option ℤ := none
deriving DecidableEq, Repr

/-- Outcome of `await self.fetcher.fetch(url)`: either the returned
`{'content': ..., 'metrics': ...}` dictionary, or an exception whose
string rendering is `msg`. -/
inductive FetchOutcome where
  | ok (content : String) (metrics : FetchMetrics)
  | raise (msg : String)
deriving DecidableEq, Repr

/-- `BasicTrackingScanner.scan_url` (`pixeltracker/scanners/basic.py`).
Inputs beyond the URL are the injected parser function, the wall-clock
values (`now` for timestamps, `dur` for the scan duration), the fetch
outcome, and `storageError` — `some msg` when the enabled storage
service raises an exception rendered as `msg` (the surrounding `except`
turns any exception inside the scan body into an error result). -/
def scan_url (parse : String → String → ParsedData) (url now : String)
    (dur : ℚ) (fetch : FetchOutcome) (storageError : Option String) : ScanResult :=
  match fetch with
  | .raise msg => create_error_result url msg now dur
  | .ok content metrics =>
    if content = "" then create_error_result url "Failed to fetch content" now dur
    else
      let parsed := parse content url
      let trackers := convert_to_tracker_info parsed url now
      let performance_metrics : PerformanceMetrics :=
        { response_time := metrics.response_time.getD 0
          content_length := metrics.content_length.getD 0
          status_code := metrics.status_code.getD 200
          redirects := metrics.redirects.getD 0 }
      let privacy_impact := AnalyzerService.analyze_privacy_impact trackers url
      let privacy_analysis : PrivacyAnalysis :=
        { privacy_score := privacy_impact.privacy_score
          risk_level := privacy_impact.risk_level
          detected_categories := privacy_impact.detected_categories
          high_risk_domains := privacy_impact.high_risk_domains
          recommendations := privacy_impact.recommendations }
      let result : ScanResult :=
        { url := url
          timestamp := now
          trackers := trackers
          performance_metrics := performance_metrics
          privacy_analysis := privacy_analysis
          scan_duration := dur
          scan_type := "basic"
          javascript_enabled := false }
      match storageError with
      | some msg => create_error_result url msg now dur
      | none => result

/-- `BasicTrackingScanner.scan_multiple_urls`
(`pixeltracker/scanners/basic.py`): `asyncio.gather(..., return_exceptions=True)`
yields one outcome per URL in input order (`outcomes`); each exception
outcome is replaced positionally by an error result for that URL, other
outcomes are kept as returned. -/
def scan_multiple_urls (urls : List String) (now : String)
    (outcomes : List (Except String ScanResult)) : List ScanResult :=
  List.zipWith (fun url outcome =>
    match outcome with
    | .error e => create_error_result url e now 0
    | .ok r => r) urls outcomes

/-- A concrete successful `ScanResult` used as a batch-scan outcome in
witnesses. -/
def okResult (url : String) : ScanResult :=
  { url := url
    timestamp := "t"
    trackers := []
    performance_metrics :=
      { response_time := 0, content_length := 0, status_code := 200, redirects := 0 }
    privacy_analysis :=
      { privacy_score := 100
        risk_level := RiskLevel.low
        detected_categories := []
        high_risk_domains := []
        recommendations := [] }
    scan_duration := 0 }

/-- A concrete batch of five gather outcomes in which the third URL's
scan raised a timeout. -/
def batchOutcomes5 : List (Except String ScanResult) :=
  [Except.ok (okResult "https://u1"), Except.ok (okResult "https://u2"),
   Except.error "timeout", Except.ok (okResult "https://u4"),
   Except.ok (okResult "https://u5")]

/-- The five input URLs matching `batchOutcomes5`. -/
def batchUrls5 : List String :=
  ["https://u1", "https://u2", "https://u3", "https://u4", "https://u5"]

/-- `RateLimitConfig` dataclass from
`pixeltracker/security/rate_limiter.py`, with the source's defaults. -/
structure RateLimitConfig where
  max_requests : ℤ := 100
  window_seconds : ℤ := 60
  refill_rate : ℚ := 1
  burst_size : ℤ := 10
deriving DecidableEq, Repr

/-- `TokenBucket` from `pixeltracker/security/rate_limiter.py`: mutable
`tokens`/`last_refill` state plus its configuration. -/
structure TokenBucket where
  config : RateLimitConfig
  tokens : ℚ
  last_refill : ℚ
deriving DecidableEq, Repr

/-- `TokenBucket.__init__`: a fresh bucket holds `max_requests` tokens
and records the current time (`time.time()` passed in as `now`). -/
def TokenBucket.init (config : RateLimitConfig) (now : ℚ) : TokenBucket :=
  { config := config, tokens := (config.max_requests : ℚ), last_refill := now }

/-- `TokenBucket._refill`: add `elapsed * refill_rate` tokens, capped at
`max_requests`, and stamp `last_refill`. -/
def TokenBucket.refill (b : TokenBucket) (now : ℚ) : TokenBucket :=
  let elapsed := now - b.last_refill
  let tokens_to_add := elapsed * b.config.refill_rate
  { b with last_refill := now
           tokens := min (b.config.max_requests : ℚ) (b.tokens + tokens_to_add) }

/-- `TokenBucket.consume`: refill, then subtract the requested tokens
when enough are available.  Returns the success flag together with the
updated bucket. -/
def TokenBucket.consume (b : TokenBucket) (now : ℚ) (tokens : ℚ) : Bool × TokenBucket :=
  let b := b.refill now
  if tokens ≤ b.tokens then (true, { b with tokens := b.tokens - tokens })
  else (false, b)

/-- Python `int(q)` on a float: truncation toward zero. -/
def pyInt (q : ℚ) : ℤ :=
  if 0 ≤ q then ⌊q⌋ else ⌈q⌉

/-- The dictionary returned by the rate-limit checks: `allowed`,
`remaining`, `reset_time`, `retry_after` (the `key` echo is omitted). -/
structure RateLimitResult where
  allowed : Bool
  remaining : ℤ
  reset_time : ℚ
  retry_after : ℚ
deriving DecidableEq, Repr

/-- `LocalRateLimiter.check_rate_limit` acting on the bucket stored for
one key (`_get_or_create_bucket` supplies a fresh bucket on first use,
modelled by `state = none`).  Returns the result dictionary and the
updated bucket. -/
def LocalRateLimiter.check_rate_limit (state : Option TokenBucket)
    (config : RateLimitConfig) (now : ℚ) (tokens : ℚ) :
    RateLimitResult × TokenBucket :=
  let bucket := match state with
    | some b => b
    | none => TokenBucket.init config now
  let consumed := bucket.consume now tokens
  let allowed := consumed.1
  let bucket := consumed.2
  let retry_after :=
    if allowed then 0 else max 0 (tokens - bucket.tokens) / config.refill_rate
  ({ allowed := allowed
     remaining := pyInt bucket.tokens
     reset_time := bucket.last_refill + (config.window_seconds : ℚ)
     retry_after := retry_after }, bucket)

/-- `n` consecutive `consume(1)` calls on a bucket, all at the same
instant `now`; returns the final bucket and whether every call
succeeded. -/
def consumeRepeatedly (b : TokenBucket) (now : ℚ) : ℕ → TokenBucket × Bool
  | 0 => (b, true)
  | Nat.succ k =>
    let first := b.consume now 1
    let rest := consumeRepeatedly first.2 now k
    (rest.1, first.1 && rest.2)

/-- Environment of one `DistributedRateLimiter.check_rate_limit` call:
whether `self.redis_client` is already connected, what the lazy
`initialize()` would raise, what the Redis operations inside the `try`
block would raise, and the bucket state `redis.get` returns. -/
structure RedisCheckEnv where
  client_initialized : Bool
  init_raises : Option String
  op_raises : Option String
  stored : Option TokenBucket
deriving DecidableEq, Repr

/-- Body of `DistributedRateLimiter.check_rate_limit` after the client
is available: the `try` block (get state, consume, setex, build the
result) with its blanket `except` that fails open. -/
def DistributedRateLimiter.check_body (env : RedisCheckEnv)
    (config : RateLimitConfig) (now : ℚ) (tokens : ℚ) : RateLimitResult :=
  match env.op_raises with
  | some _ =>
    { allowed := true
      remaining := config.max_requests
      reset_time := now + (config.window_seconds : ℚ)
      retry_after := 0 }
  | none =>
    let bucket := match env.stored with
      | some b => b
      | none => TokenBucket.init config now
    let consumed := bucket.consume now tokens
    let allowed := consumed.1
    let bucket := consumed.2
    let retry_after :=
      if allowed then 0 else max 0 (tokens - bucket.tokens) / config.refill_rate
    { allowed := allowed
      remaining := pyInt bucket.tokens
      reset_time := bucket.last_refill + (config.window_seconds : ℚ)
      retry_after := retry_after }

/-- `DistributedRateLimiter.check_rate_limit`
(`pixeltracker/security/rate_limiter.py`): when no client is connected
it first awaits `initialize()`, whose connection error propagates (that
call sits outside the `try` block); afterwards the `try` body runs and
fails open on any Redis operation error. -/
def DistributedRateLimiter.check_rate_limit (env : RedisCheckEnv)
    (config : RateLimitConfig) (now : ℚ) (tokens : ℚ) :
    Except String RateLimitResult :=
  if env.client_initialized then
    Except.ok (DistributedRateLimiter.check_body env config now tokens)
  else
    match env.init_raises with
    | some e => Except.error e
    | none => Except.ok (DistributedRateLimiter.check_body env config now tokens)

/-- Module-level `check_rate_limits` helper
(`pixeltracker/security/rate_limiter.py`): sequentially checks the
global and the per-domain limit, returning `False` on a denial; its
blanket `except` returns `True` (fail open) when either check raises. -/
def check_rate_limits
    (globalCheck : Except String RateLimitResult)
    (domainCheck : Except String RateLimitResult) : Bool :=
  match globalCheck with
  | Except.error _ => true
  | Except.ok g =>
    if g.allowed = false then false
    else
      match domainCheck with
      | Except.error _ => true
      | Except.ok d => if d.allowed = false then false else true

/-- A concrete domain-bucket configuration: capacity 2, refill 1 token
per 60 seconds. -/
def domainCfg2 : RateLimitConfig :=
  { max_requests := 2, window_seconds := 300, refill_rate := 1/60, burst_size := 10 }

/-- A concrete admitting rate-limit decision used in witnesses. -/
def admitDecision : RateLimitResult :=
  { allowed := true, remaining := 100, reset_time := 60, retry_after := 0 }

/-- A concrete check environment: connected client whose Redis
operations raise. -/
def redisDownEnv : RedisCheckEnv :=
  { client_initialized := true, init_raises := none,
    op_raises := some "redis down", stored := none }

/-- A concrete check environment: no client yet, and connecting to the
store fails. -/
def redisUnreachableEnv : RedisCheckEnv :=
  { client_initialized := false, init_raises := some "Connection refused",
    op_raises := none, stored := none }

/-- `TrackerPattern` dataclass from `pixeltracker/tracker_database.py`
(string-typed fields, unlike the enum-typed twin in `models.py`). -/
structure TrackerPattern where
  name : String
  category : String
  risk_level : String
  patterns : List String
  domains : List String
  description : String
  data_types : List String
  gdpr_relevant : Bool
  ccpa_relevant : Bool
  detection_method : String
  evasion_techniques : List String
  first_seen : String
  last_updated : String
deriving DecidableEq, Repr

/-- A compiled regex, kept abstract as its source text. -/
abbrev CompiledPattern := String

/-- Outcome of opening and JSON-decoding the signature file in
`TrackerDatabase.load_tracker_database`. -/
inductive LoadOutcome where
  | fileNotFound
  | decodeError
  | otherError (msg : String)
  | ok (data : List (String × TrackerPattern))

/-- `TrackerDatabase.load_tracker_database`
(`pixeltracker/tracker_database.py`): every failure mode
(`FileNotFoundError`, `json.JSONDecodeError`, any other exception) is
caught, a warning is printed, and the method continues with an empty
tracker dictionary; only a successful read populates it. -/
def load_tracker_database : LoadOutcome → List (String × TrackerPattern)
  | LoadOutcome.ok data => data
  | _ => []

/-- `[re.compile(pattern, re.IGNORECASE) for pattern in tracker.patterns]`:
compiling each pattern in order with an externally supplied compiler;
the first malformed pattern raises `re.error` (its message is the
pattern text). -/
def compilePatternList (compile : String → Option CompiledPattern) :
    List String → Except String (List CompiledPattern)
  | [] => Except.ok []
  | p :: ps =>
    match compile p with
    | none => Except.error p
    | some c => (compilePatternList compile ps).map (fun cs => c :: cs)

/-- `TrackerDatabase.compile_patterns`: compiles every tracker's pattern
list; a malformed pattern anywhere raises (is not caught). -/
def compile_patterns (compile : String → Option CompiledPattern) :
    List (String × TrackerPattern) →
      Except String (List (String × List CompiledPattern))
  | [] => Except.ok []
  | (tid, t) :: rest =>
    match compilePatternList compile t.patterns with
    | Except.error e => Except.error e
    | Except.ok cs =>
      match compile_patterns compile rest with
      | Except.error e => Except.error e
      | Except.ok m => Except.ok ((tid, cs) :: m)

/-- The in-memory `TrackerDatabase` state after `__init__`. -/
structure TrackerDatabase where
  trackers : List (String × TrackerPattern)
  patterns_compiled : List (String × List CompiledPattern)

/-- `TrackerDatabase.__init__`: `load_tracker_database()` followed by
`compile_patterns()`; only the latter can raise. -/
def TrackerDatabase.init (compile : String → Option CompiledPattern)
    (file : LoadOutcome) : Except String TrackerDatabase :=
  let trackers := load_tracker_database file
  match compile_patterns compile trackers with
  | Except.error e => Except.error e
  | Except.ok pc => Except.ok ⟨trackers, pc⟩

/-- A pattern compiler on which `"("` (an unbalanced regex) is
malformed. -/
def parenCompile : String → Option CompiledPattern :=
  fun p => if p = "(" then none else some p

/-- A concrete signature whose pattern list contains the malformed
pattern `"("`. -/
def badPatternTracker : TrackerPattern :=
  { name := "Bad Tracker"
    category := "analytics"
    risk_level := "high"
    patterns := ["("]
    domains := ["bad.example.com"]
    description := "signature with a malformed pattern"
    data_types := ["behavioral"]
    gdpr_relevant := true
    ccpa_relevant := false
    detection_method := "javascript"
    evasion_techniques := []
    first_seen := "2024-01-01"
    last_updated := "2024-01-01" }

/-- Python `round(x)`: round half to even. -/
def roundHalfEven (q : ℚ) : ℤ :=
  if q - ⌊q⌋ = 1/2 then (if ⌊q⌋ % 2 = 0 then ⌊q⌋ else ⌊q⌋ + 1) else round q

/-- Python `round(x, 2)`. -/
def pyRound2 (q : ℚ) : ℚ := (roundHalfEven (q * 100) : ℚ) / 100

/-- The per-risk-level series dictionary of a `TrendAnalysis`
(`risk_distributions` has exactly the keys low/medium/high/critical). -/
structure RiskDistribution where
  low : List ℕ
  medium : List ℕ
  high : List ℕ
  critical : List ℕ
deriving DecidableEq, Repr

/-- `TrendAnalysis` dataclass from
`pixeltracker/services/advanced_reporter.py`. -/
structure TrendAnalysis where
  period : String
  privacy_score_trend : List ℚ
  tracker_count_trend : List ℕ
  risk_level_distribution : RiskDistribution
  domain_growth : List ℕ
  timestamps : List String
deriving DecidableEq, Repr

/-- The results stored for one period key: Python dict indexing
`results_by_period[timestamp]`, where the timestamp always comes from
the dict's own key list. -/
def periodResults (m : List (String × List ScanResult)) (ts : String) :
    List ScanResult :=
  (m.lookup ts).getD []

/-- Number of scans in a period whose overall risk level is `lvl`
(the loop filling `risk_counts`). -/
def riskCountAt (rs : List ScanResult) (lvl : RiskLevel) : ℕ :=
  (rs.filter (fun r => r.privacy_analysis.risk_level = lvl)).length

/-- `AdvancedReporterService.generate_trend_analysis`
(`pixeltracker/services/advanced_reporter.py`): period keys sorted
ascending; for each period the mean privacy score (rounded to 2
decimals), total tracker count, per-risk-level scan counts and distinct
domain count; an empty period contributes 0 to every series.  The
source's single loop appending to all series is modelled as one map per
series over the same sorted key list. -/
def generate_trend_analysis (m : List (String × List ScanResult))
    (period : String) : TrendAnalysis :=
  let timestamps := (m.map Prod.fst).mergeSort (fun a b => a ≤ b)
  let privacy_scores := timestamps.map (fun ts =>
    let results := periodResults m ts
    if results.isEmpty then 0
    else pyRound2 (((results.map
      (fun r => (r.privacy_analysis.privacy_score : ℚ))).sum) / results.length))
  let tracker_counts := timestamps.map (fun ts =>
    let results := periodResults m ts
    if results.isEmpty then 0
    else (results.map (fun r => r.trackers.length)).sum)
  let distFor := fun lvl => timestamps.map (fun ts =>
    let results := periodResults m ts
    if results.isEmpty then 0 else riskCountAt results lvl)
  let domain_counts := timestamps.map (fun ts =>
    let results := periodResults m ts
    if results.isEmpty then 0
    else ((results.map ScanResult.unique_domains).flatten).dedup.length)
  { period := period
    privacy_score_trend := privacy_scores
    tracker_count_trend := tracker_counts
    risk_level_distribution :=
      { low := distFor RiskLevel.low
        medium := distFor RiskLevel.medium
        high := distFor RiskLevel.high
        critical := distFor RiskLevel.critical }
    domain_growth := domain_counts
    timestamps := timestamps }

/-- `PrivacyImpactIndex` dataclass from
`pixeltracker/services/advanced_reporter.py`; the `factors` dict is a
list of name/value pairs. -/
structure PrivacyImpactIndex where
  score : ℚ
  risk_category : String
  factors : List (String × ℚ)
  trending : String
  compliance_score : ℚ
deriving DecidableEq, Repr

/-- `AdvancedReporterService._calculate_tracker_density`. -/
def calculate_tracker_density (results : List ScanResult) : ℚ :=
  if results.isEmpty then 0
  else
    let total_trackers : ℚ := ((results.map (fun r => r.trackers.length)).sum : ℕ)
    let avg_trackers_per_url := total_trackers / results.length
    max 0 (min 100 (100 - (avg_trackers_per_url / 20) * 100))

/-- The `risk_weights` table of
`AdvancedReporterService._calculate_risk_severity`. -/
def riskWeight : RiskLevel → ℚ
  | RiskLevel.low => 1
  | RiskLevel.medium => 3
  | RiskLevel.high => 7
  | RiskLevel.critical => 10

/-- `AdvancedReporterService._calculate_risk_severity`. -/
def calculate_risk_severity (results : List ScanResult) : ℚ :=
  if results.isEmpty then 0
  else
    let total_risk_score : ℚ :=
      (results.map (fun r => (r.trackers.map (fun t => riskWeight t.risk_level)).sum)).sum
    let total_trackers : ℕ := (results.map (fun r => r.trackers.length)).sum
    if total_trackers = 0 then 100
    else
      let avg_risk := total_risk_score / (total_trackers : ℚ)
      max 0 (min 100 (100 - (avg_risk / 10) * 100))

/-- `AdvancedReporterService._calculate_domain_diversity`. -/
def calculate_domain_diversity (results : List ScanResult) : ℚ :=
  if results.isEmpty then 0
  else
    let all_domains := ((results.map ScanResult.unique_domains).flatten).dedup
    let total_trackers : ℕ := (results.map (fun r => r.trackers.length)).sum
    if total_trackers = 0 then 100
    else
      let diversity_ratio : ℚ := (all_domains.length : ℚ) / (total_trackers : ℚ)
      max 0 (min 100 (diversity_ratio * 100))

/-- `AdvancedReporterService._calculate_category_spread`;
`len(TrackerCategory)` is the length of `TrackerCategory.all`. -/
def calculate_category_spread (results : List ScanResult) : ℚ :=
  if results.isEmpty then 0
  else
    let all_categories := ((results.map ScanResult.categories_detected).flatten).dedup
    let category_ratio : ℚ :=
      (all_categories.length : ℚ) / (TrackerCategory.all.length : ℚ)
    max 0 (min 100 (100 - category_ratio * 100))

/-- `AdvancedReporterService._calculate_third_party_exposure`. -/
def calculate_third_party_exposure (results : List ScanResult) : ℚ :=
  if results.isEmpty then 0
  else
    let all_domains := ((results.map ScanResult.unique_domains).flatten).dedup
    let source_domains := (results.map (fun r => netloc r.url)).dedup
    let third_party_domains := all_domains.filter (fun d => ¬ d ∈ source_domains)
    if all_domains.isEmpty then 100
    else
      let third_party_ratio : ℚ :=
        (third_party_domains.length : ℚ) / (all_domains.length : ℚ)
      max 0 (min 100 (100 - third_party_ratio * 100))

/-- The weighted composite score of the index before rounding: the
factor values combined with the fixed weights, clamped to `[0, 100]`. -/
def impactCompositeScore (results : List ScanResult) : ℚ :=
  let score :=
    calculate_tracker_density results * (25/100) +
    calculate_risk_severity results * (30/100) +
    calculate_domain_diversity results * (20/100) +
    calculate_category_spread results * (15/100) +
    calculate_third_party_exposure results * (10/100)
  max 0 (min 100 score)

/-- The `score` field of `calculate_privacy_impact_index(results)`:
0 for an empty input, otherwise the rounded composite. -/
def impactScoreField (results : List ScanResult) : ℚ :=
  if results.isEmpty then 0 else pyRound2 (impactCompositeScore results)

/-- `AdvancedReporterService.calculate_privacy_impact_index`
(`pixeltracker/services/advanced_reporter.py`).  An empty current list
short-circuits to `PrivacyImpactIndex(0, 'unknown', {}, 'stable', 0)`.
The recursive `calculate_privacy_impact_index(historical_results)` used
for trending only has its `score` field inspected, embodied by
`impactScoreField`; `if historical_results:` is false for both `None`
and an empty list. -/
def calculate_privacy_impact_index (current : List ScanResult)
    (historical : Option (List ScanResult)) : PrivacyImpactIndex :=
  if current.isEmpty then
    { score := 0, risk_category := "unknown", factors := [],
      trending := "stable", compliance_score := 0 }
  else
    let factors := [
      ("tracker_density", calculate_tracker_density current),
      ("risk_severity", calculate_risk_severity current),
      ("domain_diversity", calculate_domain_diversity current),
      ("category_spread", calculate_category_spread current),
      ("third_party_exposure", calculate_third_party_exposure current)]
    let score := impactCompositeScore current
    let risk_category :=
      if 80 ≤ score then "low"
      else if 60 ≤ score then "medium"
      else if 40 ≤ score then "high"
      else "critical"
    let trending :=
      match historical with
      | none => "stable"
      | some h =>
        if h.isEmpty then "stable"
        else
          let historical_score := impactScoreField h
          if historical_score + 5 < score then "improving"
          else if score < historical_score - 5 then "degrading"
          else "stable"
    let compliance_score := min 100 (score + 10)
    { score := pyRound2 score
      risk_category := risk_category
      factors := factors
      trending := trending
      compliance_score := pyRound2 compliance_score }

/-- A concrete 1×1 pixel candidate: a heuristic (pixel-shape) signal,
not a domain match against a signature. -/
def samplePixel : PixelCandidate :=
  { src := "https://px.example.com/1.gif"
    width := "1"
    height := "1"
    is_1x1_pixel := true
    tracking_domain := none }

/-- C1 (counterexample): for a scan whose tracker list holds exactly one
`high`-risk, `advertising`-category tracker, `AnalyzerService.calculate_privacy_score`
returns `100 - 15 = 85`: only the risk-level penalty is applied, not
`100 - (15 + 10)` as the claim's category surcharge would require. -/
theorem C1_counterexample :
    AnalyzerService.calculate_privacy_score [highAdvertisingTracker] = 100 - 15 ∧
    AnalyzerService.calculate_privacy_score [highAdvertisingTracker] ≠ 100 - (15 + 10) := by
  decide

/-- C1 (amended): for every scan whose tracker list contains exactly one
tracker with risk_level high and category advertising, the
`EnhancedTrackingScanner` scorer returns 100 minus the sum of its
high-risk penalty (15) and advertising-category penalty (10), while the
`AnalyzerService` scorer applies only its high-risk penalty (15) with no
category surcharge. -/
theorem C1_amended_scores (t : TrackerInfo)
    (hrisk : t.risk_level = RiskLevel.high)
    (hcat : t.category = TrackerCategory.advertising) :
    EnhancedTrackingScanner.calculate_privacy_score [t] = 100 - (15 + 10) ∧
    AnalyzerService.calculate_privacy_score [t] = 100 - 15 := by
  simp [EnhancedTrackingScanner.calculate_privacy_score,
    AnalyzerService.calculate_privacy_score, hrisk, hcat]

/-- C1 (witness): the amended statement instantiated at the concrete
high-risk advertising tracker. -/
theorem C1_amended_scores_witness :
    EnhancedTrackingScanner.calculate_privacy_score [highAdvertisingTracker] = 100 - (15 + 10) ∧
    AnalyzerService.calculate_privacy_score [highAdvertisingTracker] = 100 - 15 :=
  C1_amended_scores highAdvertisingTracker rfl rfl

/-- C2 (counterexample): a tracker list containing two `critical`-risk
trackers yields overall risk `low` from `AnalyzerService.assess_risks`,
not `high` as the claim's "at least 2 trackers of high-or-critical risk
⇒ overall high" would require: the source counts only trackers whose
risk level is exactly `high`. -/
theorem C2_counterexample :
    (AnalyzerService.assess_risks [criticalTracker, criticalTracker] "url").overall_risk
      = RiskLevel.low ∧
    RiskLevel.low ≠ RiskLevel.high := by
  decide

/-- C2 (amended): the per-scan overall risk level is derived from the
count of trackers whose risk_level is exactly `high` (critical trackers
are not counted) and the count of trackers whose risk_level is `medium`;
any list containing at least 2 trackers of exactly-`high` risk yields
overall risk level `high`, and the reported high-risk count never counts
a `critical` tracker. -/
theorem C2_amended_overall_risk (trackers : List TrackerInfo) (url : String)
    (h : 2 ≤ (trackers.filter (fun t => t.risk_level = RiskLevel.high)).length) :
    (AnalyzerService.assess_risks trackers url).overall_risk = RiskLevel.high ∧
    (AnalyzerService.assess_risks trackers url).high_risk_trackers
      = (trackers.filter (fun t => t.risk_level = RiskLevel.high)).length := by
  constructor
  · simp only [AnalyzerService.assess_risks, ge_iff_le]
    rw [if_pos h]
  · rfl

/-- C2 (witness): the amended statement instantiated at a list of two
`high`-risk trackers. -/
theorem C2_amended_overall_risk_witness :
    (AnalyzerService.assess_risks [highAdvertisingTracker, highAdvertisingTracker]
        "url").overall_risk = RiskLevel.high ∧
    (AnalyzerService.assess_risks [highAdvertisingTracker, highAdvertisingTracker]
        "url").high_risk_trackers
      = (([highAdvertisingTracker, highAdvertisingTracker]).filter
          (fun t => t.risk_level = RiskLevel.high)).length :=
  C2_amended_overall_risk [highAdvertisingTracker, highAdvertisingTracker] "url" (by decide)

/-- C3: every `ScanResult` produced by `scan_url` satisfies the
invariant: if its `error` field is non-null then its `trackers` list is
empty and its `privacy_analysis.privacy_score` equals 0. -/
theorem C3_error_invariant (parse : String → String → ParsedData)
    (url now : String) (dur : ℚ) (fetch : FetchOutcome)
    (storageError : Option String)
    (h : (scan_url parse url now dur fetch storageError).error ≠ none) :
    (scan_url parse url now dur fetch storageError).trackers = [] ∧
    (scan_url parse url now dur fetch storageError).privacy_analysis.privacy_score = 0 := by
  cases fetch with
  | raise msg => exact ⟨rfl, rfl⟩
  | ok content metrics =>
    by_cases hc : content = ""
    · simp [scan_url, hc, create_error_result]
    · cases storageError with
      | some msg => simp [scan_url, hc, create_error_result]
      | none => exact absurd (by simp [scan_url, hc]) h

/-- C3 (witness): the invariant instantiated at a concrete failed
fetch. -/
theorem C3_error_invariant_witness :
    (scan_url (fun _ _ => ⟨[], [], []⟩) "https://u" "t" 1
        (FetchOutcome.raise "timeout") none).error ≠ none ∧
    (scan_url (fun _ _ => ⟨[], [], []⟩) "https://u" "t" 1
        (FetchOutcome.raise "timeout") none).trackers = [] ∧
    (scan_url (fun _ _ => ⟨[], [], []⟩) "https://u" "t" 1
        (FetchOutcome.raise "timeout") none).privacy_analysis.privacy_score = 0 :=
  ⟨by decide, C3_error_invariant (fun _ _ => ⟨[], [], []⟩) "https://u" "t" 1
    (FetchOutcome.raise "timeout") none (by decide)⟩

/-- C4: a batch scan returns exactly one `ScanResult` per input URL in
input order; an exception outcome for one URL becomes an error result
(non-null `error`, empty `trackers`) at that URL's position, and every
successful outcome is passed through unchanged at its own position. -/
theorem C4_batch_one_result_per_url (urls : List String) (now : String)
    (outcomes : List (Except String ScanResult))
    (h : outcomes.length = urls.length) :
    (scan_multiple_urls urls now outcomes).length = urls.length ∧
    (∀ (i : ℕ) (url e : String),
      urls.get? i = some url → outcomes.get? i = some (Except.error e) →
        (scan_multiple_urls urls now outcomes).get? i =
          some (create_error_result url e now 0) ∧
        (create_error_result url e now 0).error = some e ∧
        (create_error_result url e now 0).trackers = []) ∧
    (∀ (i : ℕ) (url : String) (r : ScanResult),
      urls.get? i = some url → outcomes.get? i = some (Except.ok r) →
        (scan_multiple_urls urls now outcomes).get? i = some r) := by
  refine ⟨?_, ?_, ?_⟩
  · unfold scan_multiple_urls
    rw [List.length_zipWith, h, Nat.min_self]
  · intro i url e hu ho
    refine ⟨?_, rfl, rfl⟩
    unfold scan_multiple_urls
    rw [List.get?_zipWith', hu, ho]
    rfl
  · intro i url r hu ho
    unfold scan_multiple_urls
    rw [List.get?_zipWith', hu, ho]
    rfl

/-- C4 (witness): a batch of 5 URLs where URL #3 raised a timeout: the
returned list has 5 entries, entry #3 (index 2) is an error result with
non-null `error` and empty `trackers`, and entries at indices 0 and 3
are the unchanged successful results. -/
theorem C4_batch_one_result_per_url_witness :
    (scan_multiple_urls batchUrls5 "t" batchOutcomes5).length = batchUrls5.length ∧
    ((scan_multiple_urls batchUrls5 "t" batchOutcomes5).get? 2 =
        some (create_error_result "https://u3" "timeout" "t" 0) ∧
      (create_error_result "https://u3" "timeout" "t" 0).error = some "timeout" ∧
      (create_error_result "https://u3" "timeout" "t" 0).trackers = []) ∧
    (scan_multiple_urls batchUrls5 "t" batchOutcomes5).get? 0 =
      some (okResult "https://u1") ∧
    (scan_multiple_urls batchUrls5 "t" batchOutcomes5).get? 3 =
      some (okResult "https://u4") := by
  obtain ⟨h1, h2, h3⟩ :=
    C4_batch_one_result_per_url batchUrls5 "t" batchOutcomes5 (by decide)
  exact ⟨h1, h2 2 "https://u3" "timeout" rfl rfl,
    h3 0 "https://u1" (okResult "https://u1") rfl rfl,
    h3 3 "https://u4" (okResult "https://u4") rfl rfl⟩

/-- Draining lemma: starting from a freshly-stamped bucket holding `m`
tokens (`m` at most the capacity), `k ≤ m` consecutive `consume(1)`
calls at the stamp instant all succeed and leave `m - k` tokens. -/
theorem consumeRepeatedly_drain (cfg : RateLimitConfig) (now : ℚ) :
    ∀ (k : ℕ) (m : ℚ), (k : ℚ) ≤ m → m ≤ (cfg.max_requests : ℚ) →
      consumeRepeatedly ⟨cfg, m, now⟩ now k = (⟨cfg, m - k, now⟩, true) := by
  intro k
  induction k with
  | zero => intro m _ _; simp [consumeRepeatedly]
  | succ k ih =>
    intro m h1 h2
    push_cast at h1
    have h1' : (1 : ℚ) ≤ m := by
      have hk : (0 : ℚ) ≤ (k : ℚ) := Nat.cast_nonneg k
      linarith
    have hcons : TokenBucket.consume ⟨cfg, m, now⟩ now 1 = (true, ⟨cfg, m - 1, now⟩) := by
      unfold TokenBucket.consume TokenBucket.refill
      simp only [sub_self, zero_mul, add_zero]
      rw [min_eq_right h2, if_pos h1']
    have hstep : consumeRepeatedly ⟨cfg, m, now⟩ now (k + 1)
        = ((consumeRepeatedly (⟨cfg, m - 1, now⟩ : TokenBucket) now k).1,
           true && (consumeRepeatedly (⟨cfg, m - 1, now⟩ : TokenBucket) now k).2) := by
      simp only [consumeRepeatedly, hcons]
    rw [hstep, ih (m - 1) (by linarith) (by linarith), Bool.true_and]
    have hm : m - 1 - (k : ℚ) = m - ((k + 1 : ℕ) : ℚ) := by push_cast; ring
    rw [hm]

/-- C5: for a token bucket of capacity `N ≥ 1` with positive refill
rate, `N` consecutive `consume(1)` calls at one instant all succeed, the
`(N+1)`-th call at the same instant is denied with `retry_after > 0`,
and repeating that call after waiting exactly `retry_after` seconds
succeeds (the elapsed time refills `retry_after * refill_rate = 1`
token, capped at the capacity). -/
theorem C5_rate_limiter_exhaust_deny_refill (cfg : RateLimitConfig) (N : ℕ) (t0 : ℚ)
    (hN : cfg.max_requests = (N : ℤ)) (hN1 : 1 ≤ N) (hrate : 0 < cfg.refill_rate) :
    (consumeRepeatedly (TokenBucket.init cfg t0) t0 N).2 = true ∧
    (LocalRateLimiter.check_rate_limit
      (some (consumeRepeatedly (TokenBucket.init cfg t0) t0 N).1) cfg t0 1).1.allowed
        = false ∧
    0 < (LocalRateLimiter.check_rate_limit
      (some (consumeRepeatedly (TokenBucket.init cfg t0) t0 N).1) cfg t0 1).1.retry_after ∧
    (LocalRateLimiter.check_rate_limit
      (some (LocalRateLimiter.check_rate_limit
        (some (consumeRepeatedly (TokenBucket.init cfg t0) t0 N).1) cfg t0 1).2)
      cfg
      (t0 + (LocalRateLimiter.check_rate_limit
        (some (consumeRepeatedly (TokenBucket.init cfg t0) t0 N).1) cfg t0 1).1.retry_after)
      1).1.allowed = true := by
  have hm : ((cfg.max_requests : ℤ) : ℚ) = (N : ℚ) := by exact_mod_cast congrArg Int.cast hN
  have h0cap : (0 : ℚ) ≤ (cfg.max_requests : ℚ) := by
    rw [hm]; exact Nat.cast_nonneg N
  have h1cap : (1 : ℚ) ≤ (cfg.max_requests : ℚ) := by
    rw [hm]; exact_mod_cast hN1
  have hdrain : consumeRepeatedly (TokenBucket.init cfg t0) t0 N
      = (⟨cfg, 0, t0⟩, true) := by
    have h := consumeRepeatedly_drain cfg t0 N ((cfg.max_requests : ℤ) : ℚ)
      (le_of_eq hm.symm) le_rfl
    calc consumeRepeatedly (TokenBucket.init cfg t0) t0 N
        = consumeRepeatedly ⟨cfg, ((cfg.max_requests : ℤ) : ℚ), t0⟩ t0 N := rfl
      _ = (⟨cfg, ((cfg.max_requests : ℤ) : ℚ) - (N : ℚ), t0⟩, true) := h
      _ = (⟨cfg, 0, t0⟩, true) := by rw [hm, sub_self]
  have hc1 : TokenBucket.consume ⟨cfg, 0, t0⟩ t0 1 = (false, ⟨cfg, 0, t0⟩) := by
    unfold TokenBucket.consume TokenBucket.refill
    simp only [sub_self, zero_mul, add_zero]
    rw [min_eq_right h0cap, if_neg (by norm_num)]
  have hdenied : LocalRateLimiter.check_rate_limit (some (⟨cfg, 0, t0⟩ : TokenBucket))
      cfg t0 1
      = ({ allowed := false
           remaining := pyInt 0
           reset_time := t0 + (cfg.window_seconds : ℚ)
           retry_after := max 0 (1 - 0) / cfg.refill_rate }, ⟨cfg, 0, t0⟩) := by
    unfold LocalRateLimiter.check_rate_limit
    simp [hc1]
  have hretry : max (0 : ℚ) (1 - 0) / cfg.refill_rate = 1 / cfg.refill_rate := by
    norm_num
  have hc2 : TokenBucket.consume ⟨cfg, 0, t0⟩ (t0 + 1 / cfg.refill_rate) 1
      = (true, ⟨cfg, 0, t0 + 1 / cfg.refill_rate⟩) := by
    unfold TokenBucket.consume TokenBucket.refill
    have helapsed : t0 + 1 / cfg.refill_rate - t0 = 1 / cfg.refill_rate := by ring
    simp only [helapsed, zero_add]
    rw [one_div, inv_mul_cancel₀ hrate.ne', min_eq_right h1cap, if_pos le_rfl]
    norm_num
  refine ⟨by rw [hdrain], ?_, ?_, ?_⟩
  · rw [hdrain, hdenied]
  · rw [hdrain, hdenied]
    simp only [hretry]
    exact div_pos one_pos hrate
  · rw [hdrain, hdenied]
    simp only [hretry]
    unfold LocalRateLimiter.check_rate_limit
    simp only [one_div] at hc2
    simp [hc2]

/-- C5 (witness): the token-bucket behaviour instantiated at the
concrete domain configuration `capacity = 2, refill 1/60 tokens per
second`, starting at time 0. -/
theorem C5_rate_limiter_exhaust_deny_refill_witness :
    (consumeRepeatedly (TokenBucket.init domainCfg2 0) 0 2).2 = true ∧
    (LocalRateLimiter.check_rate_limit
      (some (consumeRepeatedly (TokenBucket.init domainCfg2 0) 0 2).1)
      domainCfg2 0 1).1.allowed = false ∧
    0 < (LocalRateLimiter.check_rate_limit
      (some (consumeRepeatedly (TokenBucket.init domainCfg2 0) 0 2).1)
      domainCfg2 0 1).1.retry_after ∧
    (LocalRateLimiter.check_rate_limit
      (some (LocalRateLimiter.check_rate_limit
        (some (consumeRepeatedly (TokenBucket.init domainCfg2 0) 0 2).1)
        domainCfg2 0 1).2)
      domainCfg2
      (0 + (LocalRateLimiter.check_rate_limit
        (some (consumeRepeatedly (TokenBucket.init domainCfg2 0) 0 2).1)
        domainCfg2 0 1).1.retry_after)
      1).1.allowed = true :=
  C5_rate_limiter_exhaust_deny_refill domainCfg2 2 0 rfl (by norm_num)
    (by norm_num [domainCfg2])

/-- C6 (counterexample): when no Redis client is connected yet and the
backing store is unreachable, `DistributedRateLimiter.check_rate_limit`
propagates the connection error raised by its lazy `initialize()` call
(which sits outside the fail-open `try` block) instead of returning an
admitting decision. -/
theorem C6_counterexample :
    DistributedRateLimiter.check_rate_limit redisUnreachableEnv
      ({} : RateLimitConfig) 0 1 = Except.error "Connection refused" := rfl

/-- C6 (amended): once the Redis client is connected, every rate-limit
check returns a decision rather than raising; a backend error inside
the check fails open with `allowed = true`; and the module-level
`check_rate_limits` helper returns an admitting `True` whenever one of
its checks raises.  A connection error during the lazy `initialize()`
inside `DistributedRateLimiter.check_rate_limit` is, however, still
propagated to the caller. -/
theorem C6_amended_fail_open (env : RedisCheckEnv) (cfg : RateLimitConfig)
    (now tokens : ℚ) (d : Except String RateLimitResult) (e : String)
    (hinit : env.client_initialized = true) :
    (∃ r, DistributedRateLimiter.check_rate_limit env cfg now tokens = Except.ok r) ∧
    (env.op_raises = some e →
      ∃ r, DistributedRateLimiter.check_rate_limit env cfg now tokens = Except.ok r ∧
        r.allowed = true) ∧
    check_rate_limits (Except.error e) d = true := by
  refine ⟨?_, ?_, rfl⟩
  · refine ⟨DistributedRateLimiter.check_body env cfg now tokens, ?_⟩
    unfold DistributedRateLimiter.check_rate_limit
    rw [hinit, if_pos rfl]
  · intro hop
    refine ⟨DistributedRateLimiter.check_body env cfg now tokens, ?_, ?_⟩
    · unfold DistributedRateLimiter.check_rate_limit
      rw [hinit, if_pos rfl]
    · unfold DistributedRateLimiter.check_body
      rw [hop]

/-- C6 (witness): the amended statement instantiated at a connected
client whose Redis operations raise `"redis down"`. -/
theorem C6_amended_fail_open_witness :
    (∃ r, DistributedRateLimiter.check_rate_limit redisDownEnv
        ({} : RateLimitConfig) 0 1 = Except.ok r) ∧
    (redisDownEnv.op_raises = some "redis down" →
      ∃ r, DistributedRateLimiter.check_rate_limit redisDownEnv
          ({} : RateLimitConfig) 0 1 = Except.ok r ∧ r.allowed = true) ∧
    check_rate_limits (Except.error "redis down") (Except.ok admitDecision) = true :=
  C6_amended_fail_open redisDownEnv ({} : RateLimitConfig) 0 1
    (Except.ok admitDecision) "redis down" rfl

/-- A malformed pattern anywhere in a pattern list makes its compilation
raise. -/
theorem compilePatternList_error_of_mem (compile : String → Option CompiledPattern)
    (ps : List String) (p : String) (hp : p ∈ ps) (hbad : compile p = none) :
    ∃ e, compilePatternList compile ps = Except.error e := by
  induction ps with
  | nil => cases hp
  | cons q qs ih =>
    cases hq : compile q with
    | none => exact ⟨q, by simp [compilePatternList, hq]⟩
    | some c =>
      have hpqs : p ∈ qs := by
        rcases List.mem_cons.mp hp with h | h
        · subst h; rw [hbad] at hq; cases hq
        · exact h
      obtain ⟨e, he⟩ := ih hpqs
      exact ⟨e, by simp [compilePatternList, hq, he, Except.map]⟩

/-- A malformed pattern in any loaded signature makes
`compile_patterns` raise. -/
theorem compile_patterns_error_of_mem (compile : String → Option CompiledPattern)
    (data : List (String × TrackerPattern)) (tid : String) (tp : TrackerPattern)
    (p : String) (hmem : (tid, tp) ∈ data) (hp : p ∈ tp.patterns)
    (hbad : compile p = none) :
    ∃ e, compile_patterns compile data = Except.error e := by
  induction data with
  | nil => cases hmem
  | cons hd rest ih =>
    obtain ⟨hid, ht⟩ := hd
    rcases List.mem_cons.mp hmem with h | h
    · obtain ⟨e, he⟩ := compilePatternList_error_of_mem compile ht.patterns p
        (by rw [show ht = tp from (congrArg Prod.snd h).symm]; exact hp) hbad
      exact ⟨e, by simp [compile_patterns, he]⟩
    · cases hcl : compilePatternList compile ht.patterns with
      | error e => exact ⟨e, by simp [compile_patterns, hcl]⟩
      | ok cs =>
        obtain ⟨e, he⟩ := ih h
        exact ⟨e, by simp [compile_patterns, hcl, he]⟩

/-- C7 (counterexample): constructing the tracker database from a
signature file that cannot be read does not raise: the constructor
returns an empty database (detection disabled) after printing a
warning. -/
theorem C7_counterexample :
    TrackerDatabase.init parenCompile LoadOutcome.fileNotFound
      = Except.ok ⟨[], []⟩ := rfl

/-- C7 (amended): an unreadable or undecodable signature file is *not*
fatal — `load_tracker_database` swallows the error and the database is
constructed empty — while a malformed pattern inside a successfully
loaded signature *is* fatal: `compile_patterns` raises during
construction. -/
theorem C7_amended_load_vs_compile (compile : String → Option CompiledPattern)
    (msg : String) (data : List (String × TrackerPattern)) (tid : String)
    (tp : TrackerPattern) (p : String) (hmem : (tid, tp) ∈ data)
    (hp : p ∈ tp.patterns) (hbad : compile p = none) :
    TrackerDatabase.init compile LoadOutcome.fileNotFound = Except.ok ⟨[], []⟩ ∧
    TrackerDatabase.init compile LoadOutcome.decodeError = Except.ok ⟨[], []⟩ ∧
    TrackerDatabase.init compile (LoadOutcome.otherError msg) = Except.ok ⟨[], []⟩ ∧
    ∃ e, TrackerDatabase.init compile (LoadOutcome.ok data) = Except.error e := by
  refine ⟨rfl, rfl, rfl, ?_⟩
  obtain ⟨e, he⟩ := compile_patterns_error_of_mem compile data tid tp p hmem hp hbad
  exact ⟨e, by simp [TrackerDatabase.init, load_tracker_database, he]⟩

/-- C7 (witness): the amended statement instantiated at a concrete
database holding one signature with the malformed pattern `"("`. -/
theorem C7_amended_load_vs_compile_witness :
    TrackerDatabase.init parenCompile LoadOutcome.fileNotFound = Except.ok ⟨[], []⟩ ∧
    TrackerDatabase.init parenCompile LoadOutcome.decodeError = Except.ok ⟨[], []⟩ ∧
    TrackerDatabase.init parenCompile (LoadOutcome.otherError "oops")
      = Except.ok ⟨[], []⟩ ∧
    ∃ e, TrackerDatabase.init parenCompile
      (LoadOutcome.ok [("bad_tracker", badPatternTracker)]) = Except.error e :=
  C7_amended_load_vs_compile parenCompile "oops" [("bad_tracker", badPatternTracker)]
    "bad_tracker" badPatternTracker "(" (List.mem_cons_self _ _)
    (List.mem_cons_self _ _) rfl

/-- C8 (counterexample): the record produced for a 1×1-pixel heuristic
candidate — a weaker signal than a domain match — carries
`confidence = 1.0`, not a value strictly below 1.0. -/
theorem C8_counterexample :
    ((convert_to_tracker_info ⟨[samplePixel], [], []⟩ "https://site.example" "t").map
        (fun t => t.confidence)) = [1] ∧
    ¬ ∀ t ∈ convert_to_tracker_info ⟨[samplePixel], [], []⟩ "https://site.example" "t",
        t.confidence < 1 := by
  decide

/-- C8 (amended): every `TrackerInfo` record produced by
`_convert_to_tracker_info` carries `confidence = 1.0` regardless of the
kind of signal (pixel heuristic, external or inline script, meta tag):
the classifier never sets the field, so the dataclass default `1.0`
applies uniformly. -/
theorem C8_amended_confidence (parsed : ParsedData) (url now : String) :
    ∀ t ∈ convert_to_tracker_info parsed url now, t.confidence = 1 := by
  intro t ht
  simp only [convert_to_tracker_info, List.mem_append, List.mem_map] at ht
  rcases ht with (⟨p, _, rfl⟩ | ⟨j, _, rfl⟩) | ⟨mc, _, rfl⟩ <;> rfl

/-- C8 (witness): the amended statement instantiated at the record
converted from the concrete pixel candidate. -/
theorem C8_amended_confidence_witness :
    ({ tracker_type := "tracking_pixel"
       domain := extract_domain "https://px.example.com/1.gif"
       source := "https://px.example.com/1.gif"
       category := TrackerCategory.analytics
       risk_level := RiskLevel.medium
       purpose := "tracking"
       first_seen := "t"
       details := samplePixel.toDetails } : TrackerInfo).confidence = 1 :=
  C8_amended_confidence ⟨[samplePixel], [], []⟩ "https://site.example" "t" _
    (List.mem_append_left _ (List.mem_append_left _ (List.mem_cons_self _ _)))

/-- In a series built by mapping over the period labels, the entry at an
index holding label `ts` is the value the series function gives `ts`. -/
theorem trendSeriesAt {α : Type} (l : List String) (i : ℕ) (ts : String)
    (f : String → α) (z : α) (hts : l.get? i = some ts) (hz : f ts = z) :
    (l.map f).get? i = some z := by
  rw [List.get?_map, hts]
  simp [hz]

/-- C9: the trend analysis is index-aligned with the ascending-sorted
period labels: every series has exactly one entry per period key, and a
period whose result list is empty contributes the value 0 to every
series at its own index instead of being omitted. -/
theorem C9_trend_series_alignment (m : List (String × List ScanResult))
    (period : String) :
    (generate_trend_analysis m period).timestamps.length = m.length ∧
    List.Sorted (· ≤ ·) (generate_trend_analysis m period).timestamps ∧
    (generate_trend_analysis m period).privacy_score_trend.length
      = (generate_trend_analysis m period).timestamps.length ∧
    (generate_trend_analysis m period).tracker_count_trend.length
      = (generate_trend_analysis m period).timestamps.length ∧
    (generate_trend_analysis m period).risk_level_distribution.low.length
      = (generate_trend_analysis m period).timestamps.length ∧
    (generate_trend_analysis m period).risk_level_distribution.medium.length
      = (generate_trend_analysis m period).timestamps.length ∧
    (generate_trend_analysis m period).risk_level_distribution.high.length
      = (generate_trend_analysis m period).timestamps.length ∧
    (generate_trend_analysis m period).risk_level_distribution.critical.length
      = (generate_trend_analysis m period).timestamps.length ∧
    (generate_trend_analysis m period).domain_growth.length
      = (generate_trend_analysis m period).timestamps.length ∧
    (∀ (i : ℕ) (ts : String),
      (generate_trend_analysis m period).timestamps.get? i = some ts →
      periodResults m ts = [] →
      (generate_trend_analysis m period).privacy_score_trend.get? i = some 0 ∧
      (generate_trend_analysis m period).tracker_count_trend.get? i = some 0 ∧
      (generate_trend_analysis m period).risk_level_distribution.low.get? i = some 0 ∧
      (generate_trend_analysis m period).risk_level_distribution.medium.get? i = some 0 ∧
      (generate_trend_analysis m period).risk_level_distribution.high.get? i = some 0 ∧
      (generate_trend_analysis m period).risk_level_distribution.critical.get? i = some 0 ∧
      (generate_trend_analysis m period).domain_growth.get? i = some 0) := by
  refine ⟨((List.mergeSort_perm (m.map Prod.fst) _).length_eq).trans
      (List.length_map _ _),
    List.sorted_mergeSort' _,
    List.length_map _ _, List.length_map _ _, List.length_map _ _,
    List.length_map _ _, List.length_map _ _, List.length_map _ _,
    List.length_map _ _, ?_⟩
  intro i ts hts hempty
  simp only [generate_trend_analysis] at hts ⊢
  refine ⟨?_, ?_, ?_, ?_, ?_, ?_, ?_⟩ <;>
    exact trendSeriesAt _ i ts _ 0 hts (by simp [hempty])

/-- C9 (witness): the alignment instantiated at a concrete one-period
mapping whose single period has no results. -/
theorem C9_trend_series_alignment_witness :
    (generate_trend_analysis [("2024-01", [])] "monthly").timestamps.length
      = ([("2024-01", [])] : List (String × List ScanResult)).length ∧
    (generate_trend_analysis [("2024-01", [])]
        "monthly").privacy_score_trend.get? 0 = some 0 ∧
    (generate_trend_analysis [("2024-01", [])]
        "monthly").tracker_count_trend.get? 0 = some 0 ∧
    (generate_trend_analysis [("2024-01", [])]
        "monthly").domain_growth.get? 0 = some 0 := by
  obtain ⟨h1, _, _, _, _, _, _, _, _, hz⟩ :=
    C9_trend_series_alignment [("2024-01", [])] "monthly"
  have hsort : (generate_trend_analysis [("2024-01", [])]
      "monthly").timestamps = ["2024-01"] :=
    List.mergeSort_eq_self (List.sorted_singleton _)
  obtain ⟨hp, ht, _, _, _, _, hd⟩ :=
    hz 0 "2024-01" (by rw [hsort]; rfl) rfl
  exact ⟨h1, hp, ht, hd⟩

/-- Bucketing of a composite score by the four-tier if-chain of
`calculate_privacy_impact_index`: the result is one of the four tier
names and never `"unknown"`. -/
theorem riskCategoryCases (s : ℚ) :
    ((if 80 ≤ s then "low" else if 60 ≤ s then "medium"
      else if 40 ≤ s then "high" else "critical") = "low" ∨
     (if 80 ≤ s then "low" else if 60 ≤ s then "medium"
      else if 40 ≤ s then "high" else "critical") = "medium" ∨
     (if 80 ≤ s then "low" else if 60 ≤ s then "medium"
      else if 40 ≤ s then "high" else "critical") = "high" ∨
     (if 80 ≤ s then "low" else if 60 ≤ s then "medium"
      else if 40 ≤ s then "high" else "critical") = "critical") ∧
    (if 80 ≤ s then "low" else if 60 ≤ s then "medium"
     else if 40 ≤ s then "high" else "critical") ≠ "unknown" := by
  by_cases h80 : (80 : ℚ) ≤ s
  · rw [if_pos h80]; exact ⟨Or.inl rfl, by decide⟩
  · rw [if_neg h80]
    by_cases h60 : (60 : ℚ) ≤ s
    · rw [if_pos h60]; exact ⟨Or.inr (Or.inl rfl), by decide⟩
    · rw [if_neg h60]
      by_cases h40 : (40 : ℚ) ≤ s
      · rw [if_pos h40]; exact ⟨Or.inr (Or.inr (Or.inl rfl)), by decide⟩
      · rw [if_neg h40]; exact ⟨Or.inr (Or.inr (Or.inr rfl)), by decide⟩

/-- C10: the Privacy Impact Index over an empty current result list is
exactly `PrivacyImpactIndex(0, 'unknown', {}, 'stable', 0)`, and
`"unknown"` lies outside the four-tier scheme that buckets every
non-empty input: any non-empty input's risk category is one of
low/medium/high/critical and never `"unknown"`. -/
theorem C10_empty_impact_index :
    calculate_privacy_impact_index [] none
      = { score := 0, risk_category := "unknown", factors := [],
          trending := "stable", compliance_score := 0 } ∧
    (∀ (rs : List ScanResult), rs ≠ [] → ∀ (h : Option (List ScanResult)),
      ((calculate_privacy_impact_index rs h).risk_category = "low" ∨
       (calculate_privacy_impact_index rs h).risk_category = "medium" ∨
       (calculate_privacy_impact_index rs h).risk_category = "high" ∨
       (calculate_privacy_impact_index rs h).risk_category = "critical") ∧
      (calculate_privacy_impact_index rs h).risk_category ≠ "unknown") := by
  refine ⟨rfl, ?_⟩
  intro rs hne h
  cases rs with
  | nil => exact absurd rfl hne
  | cons a l => exact riskCategoryCases (impactCompositeScore (a :: l))

/-- C10 (witness): the empty-input equation together with the four-tier
bucketing instantiated at a concrete non-empty input. -/
theorem C10_empty_impact_index_witness :
    calculate_privacy_impact_index [] none
      = { score := 0, risk_category := "unknown", factors := [],
          trending := "stable", compliance_score := 0 } ∧
    (((calculate_privacy_impact_index [okResult "https://u1"] none).risk_category
          = "low" ∨
      (calculate_privacy_impact_index [okResult "https://u1"] none).risk_category
          = "medium" ∨
      (calculate_privacy_impact_index [okResult "https://u1"] none).risk_category
          = "high" ∨
      (calculate_privacy_impact_index [okResult "https://u1"] none).risk_category
          = "critical") ∧
     (calculate_privacy_impact_index [okResult "https://u1"] none).risk_category
        ≠ "unknown") := by
  obtain ⟨h1, h2⟩ := C10_empty_impact_index
  exact ⟨h1, h2 [okResult "https://u1"] (List.cons_ne_nil _ _) none⟩

end SpySpotter
